import Mathlib

/-!
Verification of the QuickPick authentication service layer.

This file is a shallow embedding of src/server/services/user.service.js
(registerUser, loginUser, verifyEmail, forgotPassword,
verifyForgotPasswordOtp, resetPassword, updateUserDetails, getUserById)
together with the pieces of the repository they depend on:

* createError from utils/errorHandler.js builds an operational error from a
  message and an HTTP status code.
* generatedOtp from utils/generatedOtp.js (its code is reproduced in
  DESIGN.md) computes Math.floor of 100000 + Math.random times 900000.
* The document store (models/user.model.js is not part of the sources at
  hand) is modelled from the spec, section 3: a list of user records, with
  findOne / findById / findByIdAndUpdate / updateOne as list operations.

Effects are made explicit: every service operation takes the store and
returns the result together with the possibly updated store; random
draws, the wall clock, bcrypt hashing and token generation enter as
explicit arguments.
-/

namespace Quickpick

/-- Operational error built by createError in utils/errorHandler.js:
a message plus an HTTP status code. -/
structure AppError where
  message : String
  statusCode : Nat
deriving Repr, DecidableEq

/-- Embeds createError from utils/errorHandler.js. -/
def createError (message : String) (statusCode : Nat) : AppError :=
  { message := message, statusCode := statusCode }

/-- Modelled from the spec: the User schema (models/user.model.js, not in
the sources at hand) keeps the forgot-password expiry as a nullable
timestamp field.  The service layer only ever writes two kinds of
JavaScript values into it: the empty string (when clearing) and the
output of Date.toISOString (a fixed-width ISO-8601 string).  This type
enumerates exactly those values, an ISO string being represented by its
millisecond epoch value. -/
inductive ExpiryVal where
  | empty : ExpiryVal
  | iso : Nat → ExpiryVal
deriving Repr, DecidableEq

/-- JavaScript string comparison between a stored expiry value and the
current Date.toISOString output, as performed on line 188 of
user.service.js.  The empty string is lexicographically below every
nonempty string, and on the fixed-width toISOString format the
lexicographic order agrees with the chronological order of the underlying
millisecond values. -/
def ExpiryVal.ltStr : ExpiryVal → Nat → Bool
  | .empty, _ => true
  | .iso m, now => m < now

/-- User record.  Fields follow the spec, section 3 (the schema file is not
in the sources at hand): unique email, name, password hash, role with
default USER, status with default Active, email-verified flag,
refresh-token value, forgot-password OTP stored as a nullable string (the
empty string standing for the cleared state, as written by the service),
its expiry, and the last-login timestamp. -/
structure User where
  _id : String
  name : String
  email : String
  password : String
  mobile : String
  role : String
  status : String
  verify_email : Bool
  refresh_token : String
  forgot_password_otp : String
  forgot_password_expiry : ExpiryVal
  last_login_date : Option Nat
deriving Repr, DecidableEq

/-- The credential store: the collection of persisted user records. -/
abbrev Store := List User

/-- Embeds UserModel.findOne with an email filter: the first record whose
email matches. -/
def findOneByEmail (email : String) (store : Store) : Option User :=
  store.find? (fun u => u.email == email)

/-- Embeds UserModel.findOne / findById with an id filter. -/
def findById (id : String) (store : Store) : Option User :=
  store.find? (fun u => u._id == id)

/-- Embeds UserModel.findByIdAndUpdate / updateOne with an id filter:
applies the update to the records whose id matches (document ids are
unique at the database level, so at most one record is affected). -/
def updateById (id : String) (f : User → User) (store : Store) : Store :=
  store.map (fun u => if u._id == id then f u else u)

/-- Embeds registerUser from user.service.js (lines 22 to 59).  The bcrypt
salt-and-hash step is the explicit argument hash; the fresh document id is
the explicit argument freshId; the verification email send has no effect
on the store.  Field defaults of the new record are modelled from the
spec, section 3: role USER, status Active, unverified, empty token and
OTP state.  The function returns the saved record itself, exactly as the
source returns savedUser. -/
def registerUser (hash : String → String) (freshId : String)
    (name email password : String) (store : Store) :
    Except AppError User × Store :=
  if name == "" || email == "" || password == "" then
    (.error (createError "Please provide email, name, and password" 400), store)
  else
    match findOneByEmail email store with
    | some _ => (.error (createError "Email already registered" 400), store)
    | none =>
      let hashPassword := hash password
      let newUser : User :=
        { _id := freshId
          name := name
          email := email
          password := hashPassword
          mobile := ""
          role := "USER"
          status := "Active"
          verify_email := false
          refresh_token := ""
          forgot_password_otp := ""
          forgot_password_expiry := .empty
          last_login_date := none }
      (.ok newUser, store ++ [newUser])

/-- Redacted user projection returned by loginUser: id, name, email, role. -/
structure LoginUserView where
  _id : String
  name : String
  email : String
  role : String
deriving Repr, DecidableEq

/-- Result of a successful login: both tokens plus the redacted user. -/
structure LoginResult where
  accessToken : String
  refreshToken : String
  user : LoginUserView
deriving Repr, DecidableEq

/-- Embeds loginUser from user.service.js (lines 66 to 108).  Password
comparison (bcryptjs.compare) is the explicit argument compare; the two
generated tokens and the current time are explicit arguments.  Persisting
the refresh token onto the user record inside genertedRefreshToken is
modelled from the spec, section 4.2 (the token utility file is not in the
sources at hand). -/
def loginUser (compare : String → String → Bool)
    (accessTok refreshTok : String) (now : Nat)
    (email password : String) (store : Store) :
    Except AppError LoginResult × Store :=
  if email == "" || password == "" then
    (.error (createError "Please provide email and password" 400), store)
  else
    match findOneByEmail email store with
    | none => (.error (createError "User not registered" 400), store)
    | some user =>
      if user.status != "Active" then
        (.error (createError "Account is not active. Please contact admin" 400), store)
      else if !(compare password user.password) then
        (.error (createError "Invalid password" 400), store)
      else
        let store1 := updateById user._id
          (fun u => { u with refresh_token := refreshTok }) store
        let store2 := updateById user._id
          (fun u => { u with last_login_date := some now }) store1
        (.ok { accessToken := accessTok
               refreshToken := refreshTok
               user := { _id := user._id, name := user.name
                         email := user.email, role := user.role } },
         store2)

/-- Embeds verifyEmail from user.service.js (lines 115 to 130): the code is
the user id; sets the verified flag through updateOne. -/
def verifyEmail (code : String) (store : Store) : Except AppError Bool × Store :=
  if code == "" then
    (.error (createError "Verification code is required" 400), store)
  else
    match findById code store with
    | none => (.error (createError "Invalid verification code" 400), store)
    | some _ =>
      (.ok true, updateById code (fun u => { u with verify_email := true }) store)

/-- Embeds generatedOtp from utils/generatedOtp.js, whose code is
reproduced in DESIGN.md: Math.floor of 100000 + Math.random times 900000.
As Math.random ranges over [0,1), the result ranges over exactly the
integers 100000 + k with k < 900000; the random draw enters as the
argument rand, reduced modulo 900000. -/
def generatedOtp (rand : Nat) : Nat :=
  100000 + rand % 900000

/-- Modelled from the spec: the User schema (models/user.model.js, not in
the sources at hand) stores the forgot-password OTP as a nullable string,
so the number produced by generatedOtp is cast to its decimal string
representation when persisted (the JavaScript Number to String cast). -/
def natToDecString (n : Nat) : String :=
  if n == 0 then "0"
  else ((Nat.digits 10 n).reverse.map Nat.digitChar).asString

/-- Embeds forgotPassword from user.service.js (lines 137 to 168).  The
random OTP draw and the current time in milliseconds are explicit
arguments; the OTP email send has no effect on the store.  One update
writes both the OTP (as its decimal string) and the expiry (toISOString
of now plus one hour). -/
def forgotPassword (rand now : Nat) (email : String) (store : Store) :
    Except AppError Bool × Store :=
  if email == "" then
    (.error (createError "Email is required" 400), store)
  else
    match findOneByEmail email store with
    | none => (.error (createError "Email not found" 400), store)
    | some user =>
      let otp := generatedOtp rand
      let expireTime := now + 60 * 60 * 1000
      (.ok true,
       updateById user._id
         (fun u => { u with
                     forgot_password_otp := natToDecString otp
                     forgot_password_expiry := ExpiryVal.iso expireTime }) store)

/-- Embeds verifyForgotPasswordOtp from user.service.js (lines 176 to 204).
The current time enters as the millisecond value behind the
Date.toISOString output of line 187.  The expiry check of line 188 is the
JavaScript string comparison ExpiryVal.ltStr; the match check of line 193
is string inequality; on success one update writes the empty string into
both OTP fields. -/
def verifyForgotPasswordOtp (now : Nat) (email otp : String) (store : Store) :
    Except AppError Bool × Store :=
  if email == "" || otp == "" then
    (.error (createError "Email and OTP are required" 400), store)
  else
    match findOneByEmail email store with
    | none => (.error (createError "Email not found" 400), store)
    | some user =>
      if user.forgot_password_expiry.ltStr now then
        (.error (createError "OTP has expired" 400), store)
      else if otp != user.forgot_password_otp then
        (.error (createError "Invalid OTP" 400), store)
      else
        (.ok true,
         updateById user._id
           (fun u => { u with
                       forgot_password_otp := ""
                       forgot_password_expiry := ExpiryVal.empty }) store)

/-- Embeds resetPassword from user.service.js (lines 213 to 237). -/
def resetPassword (hash : String → String)
    (email newPassword confirmPassword : String) (store : Store) :
    Except AppError Bool × Store :=
  if email == "" || newPassword == "" || confirmPassword == "" then
    (.error (createError "Email, new password, and confirmation are required" 400), store)
  else if newPassword != confirmPassword then
    (.error (createError "Passwords do not match" 400), store)
  else
    match findOneByEmail email store with
    | none => (.error (createError "Email not found" 400), store)
    | some user =>
      (.ok true,
       updateById user._id (fun u => { u with password := hash newPassword }) store)

/-- Update payload of updateUserDetails: the four destructured keys, each
possibly absent. -/
structure UpdatePayload where
  name : Option String
  email : Option String
  mobile : Option String
  password : Option String
deriving Repr, DecidableEq

/-- JavaScript truthiness of a possibly absent string value: absent, null
and the empty string are falsy. -/
def truthy : Option String → Bool
  | none => false
  | some s => s != ""

/-- The updateData object built by updateUserDetails: each key present
only when the supplied value is truthy. -/
structure UpdateData where
  name : Option String := none
  email : Option String := none
  mobile : Option String := none
  password : Option String := none
deriving Repr, DecidableEq

/-- Applying an updateData object to a stored record: present keys are
written, absent keys leave the stored field untouched (the semantics of a
Mongo update document). -/
def applyUpdateData (d : UpdateData) (u : User) : User :=
  { u with
    name := d.name.getD u.name
    email := d.email.getD u.email
    mobile := d.mobile.getD u.mobile
    password := d.password.getD u.password }

/-- The updateData construction of updateUserDetails, lines 248 to 257 of
user.service.js: each destructured key is added only when its supplied
value is truthy, the password after re-hashing. -/
def buildUpdateData (hash : String → String) (updates : UpdatePayload) : UpdateData :=
  { name := if truthy updates.name then updates.name else none
    email := if truthy updates.email then updates.email else none
    mobile := if truthy updates.mobile then updates.mobile else none
    password := if truthy updates.password then updates.password.map hash else none }

/-- Embeds updateUserDetails from user.service.js (lines 245 to 261):
destructures name, email, mobile, password from the payload, adds each to
updateData only if truthy (password after re-hashing), then issues
updateOne with the id filter.  Returns the matched-record count standing
for the Mongo update result. -/
def updateUserDetails (hash : String → String) (userId : String)
    (updates : UpdatePayload) (store : Store) : Nat × Store :=
  let updateData : UpdateData := buildUpdateData hash updates
  ((store.filter (fun u => u._id == userId)).length,
   updateById userId (applyUpdateData updateData) store)

/-- Projection returned by getUserById: every stored field except password
and refresh token, matching the select of minus password, minus
refresh_token on line 269 of user.service.js. -/
structure UserView where
  _id : String
  name : String
  email : String
  mobile : String
  role : String
  status : String
  verify_email : Bool
  forgot_password_otp : String
  forgot_password_expiry : ExpiryVal
  last_login_date : Option Nat
deriving Repr, DecidableEq

/-- The select projection: drops password and refresh_token, keeps the
rest. -/
def User.toView (u : User) : UserView :=
  { _id := u._id
    name := u.name
    email := u.email
    mobile := u.mobile
    role := u.role
    status := u.status
    verify_email := u.verify_email
    forgot_password_otp := u.forgot_password_otp
    forgot_password_expiry := u.forgot_password_expiry
    last_login_date := u.last_login_date }

/-- Embeds getUserById from user.service.js (lines 268 to 274). -/
def getUserById (userId : String) (store : Store) :
    Except AppError UserView × Store :=
  match findById userId store with
  | none => (.error (createError "User not found" 404), store)
  | some u => (.ok u.toView, store)

end Quickpick

/-! ### Shared lemmas about the store operations -/

namespace Quickpick


deriving instance DecidableEq for Except

/-- Finding in an updated store: when the update preserves the searched
predicate, find? commutes with updateById. -/
theorem find?_updateById (p : User → Bool) (id : String) (f : User → User)
    (hf : ∀ u, p (f u) = p u) (store : Store) :
    (updateById id f store).find? p
      = (store.find? p).map (fun u => if u._id == id then f u else u) := by
  induction store with
  | nil => rfl
  | cons a l ih =>
    have hhead : p (if a._id == id then f a else a) = p a := by
      by_cases h : a._id == id <;> simp [h, hf]
    by_cases hp : p a = true
    · rw [updateById, List.map_cons,
        List.find?_cons_of_pos _ (hhead.trans hp),
        List.find?_cons_of_pos _ hp]
      rfl
    · rw [updateById, List.map_cons,
        List.find?_cons_of_neg _ (by rw [hhead]; exact hp),
        List.find?_cons_of_neg _ hp]
      exact ih

/-- Specialization of find?_updateById to the email filter, for updates
that do not touch the email field. -/
theorem findOneByEmail_updateById (email id : String) (f : User → User)
    (hf : ∀ u, (f u).email = u.email) (store : Store) :
    findOneByEmail email (updateById id f store)
      = (findOneByEmail email store).map (fun u => if u._id == id then f u else u) :=
  find?_updateById _ id f (fun u => by simp [hf]) store

/-- Specialization of find?_updateById to the id filter, for updates that
do not touch the id field. -/
theorem findById_updateById (uid id : String) (f : User → User)
    (hf : ∀ u, (f u)._id = u._id) (store : Store) :
    findById uid (updateById id f store)
      = (findById uid store).map (fun u => if u._id == id then f u else u) :=
  find?_updateById _ id f (fun u => by simp [hf]) store

/-- Applying the same per-record update twice is the same as applying it
once, provided the update is idempotent and preserves the id. -/
theorem updateById_idem (id : String) (f : User → User)
    (hff : ∀ u, f (f u) = f u) (hid : ∀ u, (f u)._id = u._id) (store : Store) :
    updateById id f (updateById id f store) = updateById id f store := by
  unfold updateById
  rw [List.map_map]
  apply List.map_congr_left
  intro u _
  by_cases h : u._id == id
  · have h2 : ((f u)._id == id) = true := by rw [hid]; exact h
    simp [Function.comp, h, h2, hff]
  · simp [Function.comp, h]

end Quickpick

/-! ### Lemmas about the OTP value and its decimal string -/

namespace Quickpick

/-- Every record of an updated store comes from a record of the original
store, updated when its id matches. -/
theorem mem_updateById {v : User} {id : String} {f : User → User} {store : Store}
    (hv : v ∈ updateById id f store) :
    ∃ u ∈ store, v = if u._id == id then f u else u := by
  rw [updateById, List.mem_map] at hv
  obtain ⟨u, hu, hvu⟩ := hv
  exact ⟨u, hu, hvu.symm⟩

/-- The generated OTP is at least 100000. -/
theorem generatedOtp_lower (rand : Nat) : 100000 ≤ generatedOtp rand :=
  Nat.le_add_right _ _

/-- The generated OTP is at most 999999. -/
theorem generatedOtp_upper (rand : Nat) : generatedOtp rand ≤ 999999 := by
  have : rand % 900000 < 900000 := Nat.mod_lt _ (by norm_num)
  unfold generatedOtp
  omega

/-- Every decimal digit character is a digit character. -/
theorem digitChar_isDigit : ∀ d : Nat, d < 10 → (Nat.digitChar d).isDigit = true := by
  decide

/-- The decimal string of a number is never the empty string. -/
theorem natToDecString_ne_empty (n : Nat) : natToDecString n ≠ "" := by
  by_cases hz : n = 0
  · subst hz; decide
  · unfold natToDecString
    rw [if_neg (by simpa using hz)]
    intro h
    have hlen : ((Nat.digits 10 n).reverse.map Nat.digitChar).length = 0 :=
      congrArg (fun s => s.data.length) h
    rw [List.length_map, List.length_reverse] at hlen
    exact (Nat.digits_ne_nil_iff_ne_zero.mpr hz) (List.length_eq_zero.mp hlen)

/-- The decimal string of a six-digit number has length six. -/
theorem natToDecString_length_six {n : Nat}
    (h1 : 100000 ≤ n) (h2 : n ≤ 999999) :
    (natToDecString n).length = 6 := by
  unfold natToDecString
  rw [if_neg (by simp; omega)]
  show ((Nat.digits 10 n).reverse.map Nat.digitChar).length = 6
  rw [List.length_map, List.length_reverse,
    Nat.digits_len 10 n (by norm_num) (by omega)]
  have hlog : Nat.log 10 n = 5 := by
    apply Nat.log_eq_of_pow_le_of_lt_pow
    · norm_num; omega
    · norm_num; omega
  omega

/-- Every character of the decimal string of a number is a digit. -/
theorem natToDecString_all_digits (n : Nat) :
    ∀ c ∈ (natToDecString n).data, c.isDigit = true := by
  by_cases hz : n = 0
  · subst hz; decide
  · unfold natToDecString
    rw [if_neg (by simpa using hz)]
    intro c hc
    have hc2 : c ∈ (Nat.digits 10 n).reverse.map Nat.digitChar := hc
    rw [List.mem_map] at hc2
    obtain ⟨d, hd, hcd⟩ := hc2
    rw [List.mem_reverse] at hd
    have hd10 : d < 10 := Nat.digits_lt_base (by norm_num) hd
    rw [← hcd]
    exact digitChar_isDigit d hd10

/-! ### Concrete records used by the witnesses and counterexamples -/

/-- Concrete stand-in for the bcrypt salt-and-hash step. -/
def bcryptHashDemo (p : String) : String := "hashed:" ++ p

/-- Concrete password comparison matching bcryptHashDemo. -/
def bcryptCompareDemo (p hashed : String) : Bool := bcryptHashDemo p == hashed

/-- Concrete stored user record. -/
def alice : User :=
  { _id := "u1"
    name := "Alice"
    email := "alice@x.com"
    password := bcryptHashDemo "secret123"
    mobile := ""
    role := "USER"
    status := "Active"
    verify_email := false
    refresh_token := ""
    forgot_password_otp := ""
    forgot_password_expiry := .empty
    last_login_date := none }

/-- The same record after a forgotPassword call: OTP 123456 with an expiry
at millisecond 7200000. -/
def aliceWithOtp : User :=
  { alice with
    forgot_password_otp := "123456"
    forgot_password_expiry := ExpiryVal.iso 7200000 }

end Quickpick

/-! ### The paired-OTP-fields invariant -/

namespace Quickpick

/-- Per-user invariant from the spec, section 3: the forgot-password OTP
and its expiry are both present or both cleared together. -/
def otpExpiryConsistent (u : User) : Prop :=
  u.forgot_password_otp = "" ↔ u.forgot_password_expiry = ExpiryVal.empty

instance (u : User) : Decidable (otpExpiryConsistent u) := by
  unfold otpExpiryConsistent; infer_instance

/-- The invariant holds for every record of the store. -/
def storeConsistent (store : Store) : Prop :=
  ∀ u ∈ store, otpExpiryConsistent u

instance (store : Store) : Decidable (storeConsistent store) := by
  unfold storeConsistent; exact List.decidableBAll _ store

/-- A per-record update that preserves the invariant preserves it across
the whole updated store. -/
theorem storeConsistent_updateById {store : Store} (h : storeConsistent store)
    {id : String} {f : User → User}
    (hf : ∀ u, otpExpiryConsistent u → otpExpiryConsistent (f u)) :
    storeConsistent (updateById id f store) := by
  intro v hv
  obtain ⟨u, hu, hvu⟩ := mem_updateById hv
  subst hvu
  by_cases hid : u._id == id
  · rw [if_pos hid]; exact hf u (h u hu)
  · rw [if_neg hid]; exact h u hu

end Quickpick

/-! ### Claim theorems -/

namespace Quickpick

/-- C1: the claim states that a successful register never exposes the
password hash or the refresh token in the caller-facing result.  The code
returns the saved record itself (line 58 of user.service.js): at the
concrete registration input the result carries the bcrypt hash of the
supplied password in its password field, which is not empty, so the
redaction contract of the spec is violated by the code. -/
theorem c1_register_result_contains_password_hash :
    ((registerUser bcryptHashDemo "u1" "Alice" "alice@x.com" "secret123" []).1.map
        (fun u => u.password))
      = Except.ok (bcryptHashDemo "secret123")
    ∧ bcryptHashDemo "secret123" ≠ "" := by
  refine ⟨rfl, ?_⟩
  decide

/-- C3: for a user whose stored OTP expiry has passed, the verification
fails with the OTP-has-expired error and leaves the store unchanged,
whatever OTP value is supplied - in particular even when it equals the
stored one; the expiry check of line 188 of user.service.js runs before
the match check of line 193. -/
theorem c3_expiry_check_precedes_match
    (store : Store) (u : User) (email otp : String) (now m : Nat)
    (hemail : email ≠ "") (hotp : otp ≠ "")
    (hfind : findOneByEmail email store = some u)
    (hexp : u.forgot_password_expiry = ExpiryVal.iso m) (hlt : m < now) :
    verifyForgotPasswordOtp now email otp store
      = (.error (createError "OTP has expired" 400), store) := by
  simp [verifyForgotPasswordOtp, hfind, hemail, hotp, hexp, ExpiryVal.ltStr, hlt]

/-- Witness for C3 at a concrete input: the stored expiry 1000 lies before
the current time 2000, the supplied OTP equals the stored one, and the
call fails with the OTP-has-expired error. -/
theorem c3_witness :
    verifyForgotPasswordOtp 2000 "alice@x.com" "123456"
        [{ alice with forgot_password_otp := "123456",
                      forgot_password_expiry := ExpiryVal.iso 1000 }]
      = (.error (createError "OTP has expired" 400),
         [{ alice with forgot_password_otp := "123456",
                       forgot_password_expiry := ExpiryVal.iso 1000 }]) :=
  c3_expiry_check_precedes_match _ _ _ _ 2000 1000
    (by decide) (by decide) (by rfl) (by rfl) (by decide)

/-- C4: with a stored unexpired OTP, supplying a non-matching OTP fails
with the invalid-OTP error and returns the store unchanged, so the stored
OTP and expiry fields are untouched on this error path. -/
theorem c4_wrong_otp_invalid_no_mutation
    (store : Store) (u : User) (email otp : String) (now : Nat)
    (hemail : email ≠ "") (hotp : otp ≠ "")
    (hfind : findOneByEmail email store = some u)
    (hexp : u.forgot_password_expiry.ltStr now = false)
    (hne : otp ≠ u.forgot_password_otp) :
    verifyForgotPasswordOtp now email otp store
      = (.error (createError "Invalid OTP" 400), store) := by
  simp [verifyForgotPasswordOtp, hfind, hemail, hotp, hexp, hne]

/-- Witness for C4 at a concrete input: the wrong six-digit code 654321
against the stored 123456 before its expiry fails with the invalid-OTP
error and leaves the store unchanged. -/
theorem c4_witness :
    verifyForgotPasswordOtp 3600000 "alice@x.com" "654321" [aliceWithOtp]
      = (.error (createError "Invalid OTP" 400), [aliceWithOtp]) :=
  c4_wrong_otp_invalid_no_mutation [aliceWithOtp] aliceWithOtp _ _ 3600000
    (by decide) (by decide) (by rfl) (by rfl) (by decide)

end Quickpick

namespace Quickpick

/-- C2 counterexample: at a concrete input the round trip refutes the
claim as stated.  The first verification with the correct OTP before its
expiry succeeds; the second call with the same OTP then fails, but with
the OTP-has-expired error, not the invalid-OTP error: clearing writes the
empty string into the expiry field, and the JavaScript comparison of line
188 puts the empty string below every current ISO time string, so the
expiry check fires before the match check can report an invalid OTP. -/
theorem c2_counterexample_second_call_is_expired_not_invalid :
    (verifyForgotPasswordOtp 3600000 "alice@x.com" "123456" [aliceWithOtp]).1
      = .ok true
    ∧ (verifyForgotPasswordOtp 3700000 "alice@x.com" "123456"
        (verifyForgotPasswordOtp 3600000 "alice@x.com" "123456" [aliceWithOtp]).2).1
      = .error (createError "OTP has expired" 400)
    ∧ (verifyForgotPasswordOtp 3700000 "alice@x.com" "123456"
        (verifyForgotPasswordOtp 3600000 "alice@x.com" "123456" [aliceWithOtp]).2).1
      ≠ .error (createError "Invalid OTP" 400) := by
  refine ⟨rfl, rfl, ?_⟩
  decide

/-- C2 amended: calling verifyForgotPasswordOtp with the correct OTP
before its expiry succeeds and clears both the stored OTP and the stored
expiry; a second call with that same OTP afterwards fails - one-time use
holds - but with the OTP-has-expired error rather than the invalid-OTP
error, because the cleared expiry (the empty string) compares below any
current time string, so the expiry check fires first. -/
theorem c2_otp_round_trip_one_time_use
    (store : Store) (u : User) (email otp : String) (now1 now2 : Nat)
    (hemail : email ≠ "") (hotp : otp ≠ "")
    (hfind : findOneByEmail email store = some u)
    (hexp : u.forgot_password_expiry.ltStr now1 = false)
    (hmatch : otp = u.forgot_password_otp) :
    (verifyForgotPasswordOtp now1 email otp store).1 = .ok true
    ∧ (∀ v ∈ (verifyForgotPasswordOtp now1 email otp store).2, v._id = u._id →
        v.forgot_password_otp = "" ∧ v.forgot_password_expiry = ExpiryVal.empty)
    ∧ (verifyForgotPasswordOtp now2 email otp
        (verifyForgotPasswordOtp now1 email otp store).2).1
      = .error (createError "OTP has expired" 400) := by
  subst hmatch
  have h1 : verifyForgotPasswordOtp now1 email u.forgot_password_otp store
      = (.ok true,
         updateById u._id
           (fun v => { v with
                       forgot_password_otp := ""
                       forgot_password_expiry := ExpiryVal.empty }) store) := by
    simp [verifyForgotPasswordOtp, hfind, hemail, hotp, hexp]
  refine ⟨by rw [h1], ?_, ?_⟩
  · rw [h1]
    intro v hv hvid
    obtain ⟨w, _, hvw⟩ := mem_updateById hv
    by_cases hwid : w._id == u._id
    · rw [if_pos hwid] at hvw
      subst hvw
      exact ⟨rfl, rfl⟩
    · rw [if_neg hwid] at hvw
      subst hvw
      exact absurd (by simpa using hvid) (by simpa using hwid)
  · rw [h1]
    have hfind2 : findOneByEmail email
        (updateById u._id
          (fun v => { v with
                      forgot_password_otp := ""
                      forgot_password_expiry := ExpiryVal.empty }) store)
        = some { u with
                 forgot_password_otp := ""
                 forgot_password_expiry := ExpiryVal.empty } := by
      rw [findOneByEmail_updateById email u._id
          (fun v => { v with
                      forgot_password_otp := ""
                      forgot_password_expiry := ExpiryVal.empty })
          (fun v => rfl) store, hfind]
      simp
    simp [verifyForgotPasswordOtp, hfind2, hemail, hotp, ExpiryVal.ltStr]

/-- Witness for C2 at a concrete input: the round trip on the stored OTP
123456 with expiry 7200000, verified at times 3600000 and then 3700000. -/
theorem c2_witness :
    (verifyForgotPasswordOtp 3600000 "alice@x.com" "123456" [aliceWithOtp]).1
      = .ok true
    ∧ (∀ v ∈ (verifyForgotPasswordOtp 3600000 "alice@x.com" "123456"
          [aliceWithOtp]).2, v._id = aliceWithOtp._id →
        v.forgot_password_otp = "" ∧ v.forgot_password_expiry = ExpiryVal.empty)
    ∧ (verifyForgotPasswordOtp 3700000 "alice@x.com" "123456"
        (verifyForgotPasswordOtp 3600000 "alice@x.com" "123456"
          [aliceWithOtp]).2).1
      = .error (createError "OTP has expired" 400) :=
  c2_otp_round_trip_one_time_use [aliceWithOtp] aliceWithOtp
    "alice@x.com" "123456" 3600000 3700000
    (by decide) (by decide) (by rfl) (by rfl) (by rfl)

end Quickpick

namespace Quickpick

/-- C6: when the store already holds exactly one record with the given
email, a second register call with that email (and nonempty name and
password, so that the input validation of line 24 does not fire first)
fails with the email-already-registered Conflict error, performs no
persistence, and the store still holds exactly one record for that
email. -/
theorem c6_duplicate_email_register_conflict
    (hash : String → String) (freshId name email password : String) (store : Store)
    (hname : name ≠ "") (hemail : email ≠ "") (hpw : password ≠ "")
    (hone : (store.filter (fun u => u.email == email)).length = 1) :
    registerUser hash freshId name email password store
      = (.error (createError "Email already registered" 400), store)
    ∧ ((registerUser hash freshId name email password store).2.filter
        (fun u => u.email == email)).length = 1 := by
  have hex : ∃ u ∈ store, u.email == email := by
    obtain ⟨u, hu⟩ := List.length_eq_one.mp hone
    have hmem : u ∈ store.filter (fun v => v.email == email) := by
      rw [hu]; exact List.mem_singleton_self u
    rw [List.mem_filter] at hmem
    exact ⟨u, hmem.1, hmem.2⟩
  have hfind : (findOneByEmail email store).isSome := by
    rw [findOneByEmail, List.find?_isSome]
    exact hex
  obtain ⟨u, hu⟩ := Option.isSome_iff_exists.mp hfind
  have heq : registerUser hash freshId name email password store
      = (.error (createError "Email already registered" 400), store) := by
    simp [registerUser, hname, hemail, hpw, hu]
  exact ⟨heq, by rw [heq]; exact hone⟩

/-- Witness for C6 at a concrete input: registering the email of alice a
second time against the one-record store fails with the Conflict error
and the store still holds exactly the one alice record. -/
theorem c6_witness :
    registerUser bcryptHashDemo "u2" "Alice2" "alice@x.com" "pw2" [alice]
      = (.error (createError "Email already registered" 400), [alice])
    ∧ ((registerUser bcryptHashDemo "u2" "Alice2" "alice@x.com" "pw2"
        [alice]).2.filter (fun u => u.email == "alice@x.com")).length = 1 :=
  c6_duplicate_email_register_conflict bcryptHashDemo "u2" "Alice2"
    "alice@x.com" "pw2" [alice] (by decide) (by decide) (by decide) (by decide)

/-- C7: getUserById fails with the 404 NotFound error when no record has
the id; on success it returns the select projection of the stored record;
and that projection is insensitive to the password and refresh-token
fields, so the result never carries either. -/
theorem c7_getUserById_redacts_and_not_found :
    (∀ userId store, findById userId store = none →
        getUserById userId store
          = (.error (createError "User not found" 404), store))
    ∧ (∀ userId store u, findById userId store = some u →
        getUserById userId store = (.ok u.toView, store))
    ∧ (∀ u pw rt,
        User.toView { u with password := pw, refresh_token := rt }
          = User.toView u) := by
  refine ⟨?_, ?_, ?_⟩
  · intro userId store h
    simp [getUserById, h]
  · intro userId store u h
    simp [getUserById, h]
  · intro u pw rt
    rfl

/-- Witness for C7 at concrete inputs: an unknown id fails with the 404
error, and the known id of alice returns exactly the projection of the
stored record. -/
theorem c7_witness :
    getUserById "zzz" [alice]
      = (.error (createError "User not found" 404), [alice])
    ∧ getUserById "u1" [alice] = (.ok alice.toView, [alice]) :=
  ⟨c7_getUserById_redacts_and_not_found.1 "zzz" [alice] (by decide),
   c7_getUserById_redacts_and_not_found.2.1 "u1" [alice] alice (by rfl)⟩

/-- C8: a successful forgotPassword call stores as OTP the decimal string
of the generated value, a six-digit numeric string whose value lies in
[100000, 999999], and stores as expiry exactly the current time plus one
hour in milliseconds. -/
theorem c8_forgotPassword_stores_otp_and_expiry
    (rand now : Nat) (email : String) (store : Store) (u : User)
    (hemail : email ≠ "") (hfind : findOneByEmail email store = some u) :
    (forgotPassword rand now email store).1 = .ok true
    ∧ ∃ v, findOneByEmail email (forgotPassword rand now email store).2 = some v
        ∧ v.forgot_password_otp = natToDecString (generatedOtp rand)
        ∧ v.forgot_password_otp.length = 6
        ∧ (∀ c ∈ v.forgot_password_otp.data, c.isDigit = true)
        ∧ 100000 ≤ generatedOtp rand
        ∧ generatedOtp rand ≤ 999999
        ∧ v.forgot_password_expiry = ExpiryVal.iso (now + 60 * 60 * 1000) := by
  have h1 : forgotPassword rand now email store
      = (.ok true,
         updateById u._id
           (fun w => { w with
                       forgot_password_otp := natToDecString (generatedOtp rand)
                       forgot_password_expiry
                         := ExpiryVal.iso (now + 60 * 60 * 1000) }) store) := by
    simp [forgotPassword, hfind, hemail]
  rw [h1]
  refine ⟨rfl,
    ⟨{ u with
       forgot_password_otp := natToDecString (generatedOtp rand)
       forgot_password_expiry := ExpiryVal.iso (now + 60 * 60 * 1000) },
     ?_, rfl, ?_, ?_, generatedOtp_lower rand, generatedOtp_upper rand, rfl⟩⟩
  · rw [findOneByEmail_updateById email u._id
        (fun w => { w with
                    forgot_password_otp := natToDecString (generatedOtp rand)
                    forgot_password_expiry
                      := ExpiryVal.iso (now + 60 * 60 * 1000) })
        (fun w => rfl) store, hfind]
    simp
  · exact natToDecString_length_six (generatedOtp_lower rand) (generatedOtp_upper rand)
  · exact natToDecString_all_digits _

end Quickpick

namespace Quickpick

/-- Witness for C8 at a concrete input: the draw 42 at time 1000 on the
one-record store of alice. -/
theorem c8_witness :
    (forgotPassword 42 1000 "alice@x.com" [alice]).1 = .ok true
    ∧ ∃ v, findOneByEmail "alice@x.com"
            (forgotPassword 42 1000 "alice@x.com" [alice]).2 = some v
        ∧ v.forgot_password_otp = natToDecString (generatedOtp 42)
        ∧ v.forgot_password_otp.length = 6
        ∧ (∀ c ∈ v.forgot_password_otp.data, c.isDigit = true)
        ∧ 100000 ≤ generatedOtp 42
        ∧ generatedOtp 42 ≤ 999999
        ∧ v.forgot_password_expiry = ExpiryVal.iso (1000 + 60 * 60 * 1000) :=
  c8_forgotPassword_stores_otp_and_expiry 42 1000 "alice@x.com" [alice] alice
    (by decide) (by rfl)

/-- C9: verifyEmail is idempotent.  For an existing user a first call
succeeds; the call on the resulting store succeeds again, silently, and
returns that store unchanged, so applying the operation twice equals
applying it once. -/
theorem c9_verifyEmail_idempotent
    (code : String) (store : Store)
    (hcode : code ≠ "") (hex : (findById code store).isSome) :
    (verifyEmail code store).1 = .ok true
    ∧ verifyEmail code (verifyEmail code store).2
        = (.ok true, (verifyEmail code store).2) := by
  obtain ⟨u, hu⟩ := Option.isSome_iff_exists.mp hex
  have h1 : verifyEmail code store
      = (.ok true,
         updateById code (fun v => { v with verify_email := true }) store) := by
    simp [verifyEmail, hcode, hu]
  have hfind2 : findById code
      (updateById code (fun v => { v with verify_email := true }) store)
      = some (if u._id == code then { u with verify_email := true } else u) := by
    rw [findById_updateById code code
        (fun v => { v with verify_email := true }) (fun v => rfl) store, hu]
    rfl
  have h2 : verifyEmail code
      (updateById code (fun v => { v with verify_email := true }) store)
      = (.ok true,
         updateById code (fun v => { v with verify_email := true })
           (updateById code (fun v => { v with verify_email := true }) store)) := by
    simp [verifyEmail, hcode, hfind2]
  refine ⟨by rw [h1], ?_⟩
  rw [h1, h2,
    updateById_idem code (fun v => { v with verify_email := true })
      (fun v => rfl) (fun v => rfl) store]

/-- Witness for C9 at a concrete input: verifying the email of alice by
her id twice; the second call succeeds and changes nothing. -/
theorem c9_witness :
    (verifyEmail "u1" [alice]).1 = .ok true
    ∧ verifyEmail "u1" (verifyEmail "u1" [alice]).2
        = (.ok true, (verifyEmail "u1" [alice]).2) :=
  c9_verifyEmail_idempotent "u1" [alice] (by decide) (by rfl)

/-- C10: updateUserDetails writes only the four destructured keys.  The
resulting store equals the original with exactly the id-matching records
rewritten, and each such record changes only in name, email, mobile and
password; a key whose supplied value is falsy is skipped, keeping the
stored field; every record with a different id, and every field outside
the four, is untouched (the record-update on the right names only the
four writable fields). -/
theorem c10_updateUserDetails_frame
    (hash : String → String) (userId : String)
    (updates : UpdatePayload) (store : Store) :
    (updateUserDetails hash userId updates store).2
      = store.map (fun u =>
          if u._id == userId then
            { u with
              name := if truthy updates.name
                then updates.name.getD u.name else u.name
              email := if truthy updates.email
                then updates.email.getD u.email else u.email
              mobile := if truthy updates.mobile
                then updates.mobile.getD u.mobile else u.mobile
              password := if truthy updates.password
                then (updates.password.map hash).getD u.password else u.password }
          else u) := by
  show updateById userId (applyUpdateData (buildUpdateData hash updates)) store = _
  unfold updateById
  apply List.map_congr_left
  intro u _
  by_cases hid : u._id == userId
  · rw [if_pos hid, if_pos hid]
    unfold applyUpdateData buildUpdateData
    by_cases hn : truthy updates.name
      <;> by_cases he : truthy updates.email
      <;> by_cases hm : truthy updates.mobile
      <;> by_cases hp : truthy updates.password
      <;> simp [hn, he, hm, hp]
  · rw [if_neg hid, if_neg hid]

end Quickpick

namespace Quickpick

/-- C5: the per-user invariant that the forgot-password OTP and its
expiry are both present or both cleared is preserved by every auth
service operation: forgotPassword writes both fields in its one update
(a nonempty decimal string and an ISO expiry), verifyForgotPasswordOtp
clears both in its one update, and no other operation writes either
field. -/
theorem c5_otp_expiry_paired_invariant :
    (∀ hash freshId name email password store, storeConsistent store →
      storeConsistent (registerUser hash freshId name email password store).2)
    ∧ (∀ compare atk rtk now email password store, storeConsistent store →
      storeConsistent (loginUser compare atk rtk now email password store).2)
    ∧ (∀ code store, storeConsistent store →
      storeConsistent (verifyEmail code store).2)
    ∧ (∀ rand now email store, storeConsistent store →
      storeConsistent (forgotPassword rand now email store).2)
    ∧ (∀ now email otp store, storeConsistent store →
      storeConsistent (verifyForgotPasswordOtp now email otp store).2)
    ∧ (∀ hash email newPassword confirmPassword store, storeConsistent store →
      storeConsistent (resetPassword hash email newPassword confirmPassword store).2)
    ∧ (∀ hash userId updates store, storeConsistent store →
      storeConsistent (updateUserDetails hash userId updates store).2)
    ∧ (∀ userId store, storeConsistent store →
      storeConsistent (getUserById userId store).2) := by
  refine ⟨?_, ?_, ?_, ?_, ?_, ?_, ?_, ?_⟩
  · intro hash freshId name email password store h
    unfold registerUser
    split
    · exact h
    · split
      · exact h
      · intro v hv
        rw [List.mem_append] at hv
        rcases hv with hv | hv
        · exact h v hv
        · rw [List.mem_singleton] at hv
          subst hv
          unfold otpExpiryConsistent
          simp
  · intro compare atk rtk now email password store h
    unfold loginUser
    split
    · exact h
    · split
      · exact h
      · split
        · exact h
        · split
          · exact h
          · apply storeConsistent_updateById
            · apply storeConsistent_updateById h
              intro u hu
              exact hu
            · intro u hu
              exact hu
  · intro code store h
    unfold verifyEmail
    split
    · exact h
    · split
      · exact h
      · apply storeConsistent_updateById h
        intro u hu
        exact hu
  · intro rand now email store h
    unfold forgotPassword
    split
    · exact h
    · split
      · exact h
      · apply storeConsistent_updateById h
        intro u _
        unfold otpExpiryConsistent
        simp [natToDecString_ne_empty]
  · intro now email otp store h
    unfold verifyForgotPasswordOtp
    split
    · exact h
    · split
      · exact h
      · split
        · exact h
        · split
          · exact h
          · apply storeConsistent_updateById h
            intro u _
            unfold otpExpiryConsistent
            simp
  · intro hash email newPassword confirmPassword store h
    unfold resetPassword
    split
    · exact h
    · split
      · exact h
      · split
        · exact h
        · apply storeConsistent_updateById h
          intro u hu
          exact hu
  · intro hash userId updates store h
    apply storeConsistent_updateById h
    intro u hu
    exact hu
  · intro userId store h
    unfold getUserById
    split
    · exact h
    · exact h

/-- Witness for C5 at a concrete input: the one-record store of alice
satisfies the invariant, and so does the store left by a concrete
forgotPassword call on it. -/
theorem c5_witness :
    storeConsistent (forgotPassword 42 1000 "alice@x.com" [alice]).2 :=
  c5_otp_expiry_paired_invariant.2.2.2.1 42 1000 "alice@x.com" [alice]
    (by decide)

end Quickpick
